import Mathlib

/-!
Shallow embedding of the wxdata repository (files src/wxdata/stormevents/tornprocessing.py
and src/wxdata/http.py) together with theorems checking the specification claims.

Modelling conventions:
- pandas Timestamps and Timedeltas are integer nanosecond counts (as pandas stores them),
  so timestamps and durations are values of type Int.
- Python float quantities that the code compares and divides (path lengths, speeds,
  latitudes, longitudes) are modelled as rationals.
- Python floor division and floor modulus on these integers coincide with Int division
  and Int modulus in Lean for positive divisors, which is the only case the code uses.
- pandas missing values (NaN / NaT) are modelled with Option.
- Fallible code paths (raised Python exceptions) are modelled with Except.
-/

namespace WxData

/-- One nanosecond-count per second, the pandas Timedelta resolution. -/
def nsPerSecond : Int := 1000000000

/-- Embeds tornprocessing ONE_DAY = pd.Timedelta(days=1) as nanoseconds. -/
def ONE_DAY : Int := 86400 * nsPerSecond

/-- Embeds tornprocessing ONE_HOUR = pd.Timedelta(hours=1) as nanoseconds. -/
def ONE_HOUR : Int := 3600 * nsPerSecond

/-- Embeds tornprocessing ONE_MINUTE = pd.Timedelta(minutes=1) as nanoseconds. -/
def ONE_MINUTE : Int := 60 * nsPerSecond

/-- Embeds tornprocessing TORNADO_LONVEVITY_LIMIT = pd.Timedelta(hours=4), keeping the
source spelling. -/
def TORNADO_LONVEVITY_LIMIT : Int := 4 * ONE_HOUR

/-- One storm-event table row, restricted to the columns the tornprocessing functions
read: event_type, begin_date_time, end_date_time, tor_length, and the four track
coordinates used by the points function. Timestamps are nanosecond counts. -/
structure TornRow where
  event_type : String
  begin_date_time : Int
  end_date_time : Int
  tor_length : ℚ
  begin_lat : ℚ
  begin_lon : ℚ
  end_lat : ℚ
  end_lon : ℚ
deriving Repr, DecidableEq

/-- The seconds component of a pandas Timedelta holding ns nanoseconds: pandas
normalises a Timedelta into days, seconds, microseconds and nanoseconds with the
seconds component in the range 0 to 86399, which for an integer nanosecond count is
floor division by one second followed by modulus 86400. -/
def tdSeconds (ns : Int) : Int := ns / nsPerSecond % 86400

/-- Embeds the longevity function: end_date_time minus begin_date_time, per row. -/
def longevity (r : TornRow) : Int := r.end_date_time - r.begin_date_time

/-- Embeds the nested helper correct_only_end inside corrected_times_for.  The
closure variable torlen is passed explicitly.  Note the source line
pd.Timedelta(hours - 1): a bare integer argument to pd.Timedelta is a count of
nanoseconds, so this term adds hours - 1 nanoseconds, and the embedding reproduces
that behaviour faithfully. -/
def correct_only_end (torlen : ℚ) (b e : Int) : Int :=
  let elapsed := e - b
  if TORNADO_LONVEVITY_LIMIT ≤ elapsed then
    if torlen < 3/10 then b
    else if b + ONE_DAY ≤ e then elapsed % ONE_DAY + b
    else b
  else if ONE_HOUR ≤ elapsed then
    let mph := torlen / ((tdSeconds elapsed : ℚ) / 3600)
    if mph < 8 then
      let hours := tdSeconds elapsed / 3600
      elapsed % ONE_HOUR + (hours - 1) + b
    else e
  else e

/-- Embeds corrected_times_for: the single-row time-correction dispatch over
event type and the order of the two recorded timestamps. -/
def corrected_times_for (torn : TornRow) : Int × Int :=
  if torn.event_type ≠ "Tornado" then (torn.begin_date_time, torn.end_date_time)
  else if torn.begin_date_time ≤ torn.end_date_time then
    (torn.begin_date_time,
     correct_only_end torn.tor_length torn.begin_date_time torn.end_date_time)
  else if torn.begin_date_time - torn.end_date_time < TORNADO_LONVEVITY_LIMIT then
    (torn.end_date_time,
     correct_only_end torn.tor_length torn.end_date_time torn.begin_date_time)
  else (torn.begin_date_time, torn.end_date_time + ONE_DAY)

/-- Modelled from the spec: the time-field synchronization step sync_datetime_fields is
imported from wxdata.stormevents.temporal, whose source file is not present under src/.
The spec says it re-derives other timestamp-dependent fields so they stay synchronized
with the corrected begin and end fields, and keeps every row; on the columns modelled
here it therefore changes nothing. -/
def sync_datetime_fields (df : List TornRow) : List TornRow := df

/-- Embeds correct_tornado_times: applies corrected_times_for to every row, writing the
corrected pair back into the two time columns, then runs the synchronization step. -/
def correct_tornado_times (df : List TornRow) : List TornRow :=
  sync_datetime_fields (df.map (fun r =>
    TornRow.mk r.event_type (corrected_times_for r).1 (corrected_times_for r).2
      r.tor_length r.begin_lat r.begin_lon r.end_lat r.end_lon))

/-- Embeds speed_mph: longevities below the floor (default 30 seconds when the argument
is none) are masked to a missing value, the rest are converted to hours and divide the
path length. -/
def speed_mph (df : List TornRow) (floor_longevity : Option Int) : List (Option ℚ) :=
  let fl := floor_longevity.getD (30 * nsPerSecond)
  let longevities : List (Option Int) :=
    (df.map longevity).map (fun l => if l < fl then none else some l)
  let hoursCol : List (Option ℚ) :=
    longevities.map (fun o => o.map (fun (l : Int) => (l : ℚ) / (ONE_HOUR : ℚ)))
  (df.zip hoursCol).map (fun p => p.2.map (fun h => p.1.tor_length / h))

/-- Embeds numpy linspace over rationals: num evenly spaced samples from start to stop,
endpoints included; num = 0 gives the empty list and num = 1 gives just the start. -/
def linspace (start stop : ℚ) (num : Nat) : List ℚ :=
  if num = 0 then []
  else if num = 1 then [start]
  else (List.range num).map (fun (i : Nat) =>
    start + (stop - start) * (i : ℚ) / ((num : ℚ) - 1))

/-- Embeds the points function: interpolates the track into
floor(elapsed_minutes / spacing_minutes) + 1 coordinate pairs.  The float floor
division of the source is the rational floor here.  A negative sample count makes
numpy linspace raise, modelled as none; delta = none selects the one-minute default. -/
def points (torn : TornRow) (delta : Option Int) : Option (List (ℚ × ℚ)) :=
  let d := delta.getD ONE_MINUTE
  let elapsed_min : ℚ := (longevity torn : ℚ) / (ONE_MINUTE : ℚ)
  let spacing_min : ℚ := (d : ℚ) / (ONE_MINUTE : ℚ)
  let numpoints : Int := ⌊elapsed_min / spacing_min⌋ + 1
  if numpoints < 0 then none
  else some ((linspace torn.begin_lat torn.end_lat numpoints.toNat).zip
             (linspace torn.begin_lon torn.end_lon numpoints.toNat))

/-- The response object stored in a save result: either an HTTP response carrying a
status code (requests library), or the plain URL-opener handle returned by urlopen on
the FTP path, which has no status-code attribute. -/
inductive RespObj where
  | http (status_code : Int)
  | ftpHandle
deriving Repr, DecidableEq

/-- Reading the status_code attribute: defined for an HTTP response, and an attribute
error (none) for the plain URL-opener handle. -/
def RespObj.statusCode : RespObj → Option Int
  | RespObj.http c => some c
  | RespObj.ftpHandle => none

/-- Embeds the SaveResult record of http.py: source url, destination, optional response
object, accumulated callback exceptions (by message), whether a network request was
executed, and the expected status (200 at every construction site). -/
structure SaveResult where
  url : String
  dest : String
  response : Option RespObj
  exceptions : List String
  executed_request : Bool
  expected_status : Int
deriving Repr, DecidableEq

/-- Embeds the success property: when a request was executed, http_success is the
short-circuit conjunction response-is-present and status_code equals the expected
status (reading status_code can fail, propagated as none); otherwise http_success is
true; the result is http_success and the exception list is empty. -/
def SaveResult.success (r : SaveResult) : Option Bool :=
  let http_success : Option Bool :=
    if r.executed_request then
      match r.response with
      | none => some false
      | some resp =>
        match resp.statusCode with
        | none => none
        | some c => some (c == r.expected_status)
    else some true
  http_success.map (fun b => b && r.exceptions.isEmpty)

/-- One bulk-save job as save_and_exec_callback sees it: the url, its destination from
the save mapping, the scheme that urlparse extracts from the url, whether a file
already exists at the destination, the status code an HTTP GET of the url would
return, and whether the user callback would raise on this item. -/
structure SaveJob where
  url : String
  dest : String
  scheme : String
  destExists : Bool
  httpStatus : Int
  callbackRaises : Bool
deriving Repr, DecidableEq

/-- Embeds the nested wrapped_callback: when a callback is supplied and it raises, the
exception is appended to the result; otherwise the result is unchanged (the stored
callback output value is outside the modelled fields). -/
def wrapped_callback (hasCallback : Bool) (job : SaveJob) (r : SaveResult) : SaveResult :=
  if hasCallback && job.callbackRaises then
    SaveResult.mk r.url r.dest r.response (r.exceptions ++ ["CallbackException"])
      r.executed_request r.expected_status
  else r

/-- Embeds save_and_exec_callback.  Branches in source order: skip when the destination
exists and overriding is off; the FTP path stores the raw URL-opener handle; the HTTP
path captures an HTTPError for a 4xx or 5xx status, while a non-200 status outside
that range escapes as an uncaught DataRetrievalException raised by
save_response_content; any other scheme raises ValueError. -/
def save_and_exec_callback (overrideExisting hasCallback : Bool) (job : SaveJob) :
    Except String SaveResult :=
  if !overrideExisting && job.destExists then
    Except.ok (wrapped_callback hasCallback job (SaveResult.mk job.url job.dest none [] false 200))
  else if job.scheme = "ftp" then
    Except.ok (wrapped_callback hasCallback job
      (SaveResult.mk job.url job.dest (some RespObj.ftpHandle) [] true 200))
  else if job.scheme = "http" ∨ job.scheme = "https" then
    let r := SaveResult.mk job.url job.dest (some (RespObj.http job.httpStatus)) [] true 200
    if 400 ≤ job.httpStatus ∧ job.httpStatus < 600 then
      Except.ok (SaveResult.mk r.url r.dest r.response ["HTTPError"] r.executed_request
        r.expected_status)
    else if job.httpStatus ≠ 200 then
      Except.error "DataRetrievalException"
    else
      Except.ok (wrapped_callback hasCallback job r)
  else
    Except.error ("ValueError: Cannot save: " ++ job.url)

/-- Embeds saveall on the sequential path (at most one entry maps in the calling
context); per-item processing is the same function either way and list order follows
the key order of the mapping. -/
def saveall (overrideExisting hasCallback : Bool) (jobs : List SaveJob) :
    Except String (List SaveResult) :=
  jobs.mapM (save_and_exec_callback overrideExisting hasCallback)

/-- Python str.endswith, over the character lists of the strings; every string ends
with the empty string. -/
def endswith (s pat : String) : Bool := List.isSuffixOf pat.data s.data

/-- Embeds get_links.  The page fetch is abstracted by the response status and the list
of href attributes of the anchor elements of the fetched page, in document order; an
empty url raises ValueError, a non-200 status raises DataRetrievalException, otherwise
one trailing slash is stripped from the url, hrefs ending with ext (default empty)
are kept, each is prefixed with the url and a slash, and an optional file_filter
restricts the resulting absolute urls. -/
def get_links (url : String) (ext : Option String) (status : Int) (hrefs : List String)
    (file_filter : Option (String → Bool)) : Except String (List String) :=
  if url = "" then Except.error "ValueError: Must enter a non-empty url"
  else
    let url2 := if endswith url "/" then url.dropRight 1 else url
    let ext2 := ext.getD ""
    if status ≠ 200 then Except.error "DataRetrievalException"
    else
      let results := (hrefs.filter (fun h => endswith h ext2)).map (fun h => url2 ++ "/" ++ h)
      match file_filter with
      | some ff => Except.ok (results.filter ff)
      | none => Except.ok results

/-! Helper lemmas shared by several claims. -/

/-- linspace always returns exactly num samples. -/
theorem linspace_length (a c : ℚ) (n : Nat) : (linspace a c n).length = n := by
  unfold linspace
  split_ifs with h1 h2
  · simp [h1]
  · simp [h2]
  · rw [List.length_map, List.length_range]

/-- The wrapped callback never changes the stored response object. -/
theorem wrapped_callback_response (hc : Bool) (job : SaveJob) (r : SaveResult) :
    (wrapped_callback hc job r).response = r.response := by
  unfold wrapped_callback
  split_ifs <;> rfl

/-- The wrapped callback never changes the executed-request flag. -/
theorem wrapped_callback_executed (hc : Bool) (job : SaveJob) (r : SaveResult) :
    (wrapped_callback hc job r).executed_request = r.executed_request := by
  unfold wrapped_callback
  split_ifs <;> rfl

/-- The wrapped callback never changes the expected status. -/
theorem wrapped_callback_expected (hc : Bool) (job : SaveJob) (r : SaveResult) :
    (wrapped_callback hc job r).expected_status = r.expected_status := by
  unfold wrapped_callback
  split_ifs <;> rfl

/-- Key step for claim C2: for a Tornado row with distinct begin strictly before end,
elapsed under the four-hour limit, and not the exactly-one-hour slow case, the
end-only correction cannot return the begin time. -/
theorem correct_only_end_ne_of (t : ℚ) (b e : Int) (hlt : b < e)
    (h4 : e - b < TORNADO_LONVEVITY_LIMIT)
    (hne : ¬(e - b = ONE_HOUR ∧ t < 8)) :
    b ≠ correct_only_end t b e := by
  have hONE : ONE_HOUR = 3600000000000 := by norm_num [ONE_HOUR, nsPerSecond]
  have hLIM : TORNADO_LONVEVITY_LIMIT = 14400000000000 := by
    norm_num [TORNADO_LONVEVITY_LIMIT, ONE_HOUR, nsPerSecond]
  rw [hONE] at hne
  rw [hLIM] at h4
  simp only [correct_only_end, tdSeconds, hONE, hLIM, nsPerSecond]
  rw [if_neg (by omega)]
  by_cases hh : (3600000000000 : Int) ≤ e - b
  · rw [if_pos hh]
    by_cases hm : t / ((((e - b) / 1000000000 % 86400 : Int) : ℚ) / 3600) < 8
    · rw [if_pos hm]
      intro hcontra
      have hx1 : (e - b) % 3600000000000 +
          ((e - b) / 1000000000 % 86400 / 3600 - 1) = 0 := by omega
      have hd1 : 3600 ≤ (e - b) / 1000000000 := by omega
      have hd2 : (e - b) / 1000000000 < 14400 := by omega
      have hmod : (e - b) / 1000000000 % 86400 = (e - b) / 1000000000 := by omega
      rw [hmod] at hx1 hm
      have hdiv : (e - b) / 1000000000 / 3600 = 1 := by omega
      rw [hdiv] at hx1
      have heq : e - b = 3600000000000 := by omega
      rw [heq] at hm
      norm_num at hm
      exact hne ⟨heq, hm⟩
    · rw [if_neg hm]
      omega
  · rw [if_neg hh]
    omega

/-! Claim theorems. -/

/-- Claim C1 (code_bug evaluation). For a Tornado row with begin at 0, end 2.5 hours
later and path length 1 mile (implied speed 0.4 mph, below 8), the claim and the
source comment say the corrected end is begin plus the 30-minute sub-hour remainder
plus one hour (5400000000000 ns), but the code computes begin plus the remainder plus
one NANOSECOND, because pd.Timedelta(hours - 1) interprets its bare integer argument
as nanoseconds. -/
theorem C1_code_eval :
    corrected_times_for (TornRow.mk "Tornado" 0 9000000000000 1 0 0 0 0) =
      (0, 1800000000001) ∧ (1800000000001 : Int) ≠ 5400000000000 := by
  constructor
  · norm_num [corrected_times_for, correct_only_end, tdSeconds, TORNADO_LONVEVITY_LIMIT,
      ONE_HOUR, ONE_DAY, nsPerSecond]
  · norm_num

/-- Claim C2 (counterexample). A Tornado row with distinct times (begin 0, end 5 hours
later) and path length 1 mile (at least 0.3) is corrected to an equal pair (0, 0):
the elapsed time exceeds the four-hour limit, the end is less than one day after the
begin, and the fall-back brief-touchdown branch returns begin as the corrected end. -/
theorem C2_counterexample :
    corrected_times_for (TornRow.mk "Tornado" 0 18000000000000 1 0 0 0 0) = (0, 0) ∧
    (0 : Int) ≠ 18000000000000 ∧ ¬ ((1 : ℚ) < 3/10) := by
  refine ⟨?_, by norm_num, by norm_num⟩
  norm_num [corrected_times_for, correct_only_end, tdSeconds, TORNADO_LONVEVITY_LIMIT,
    ONE_HOUR, ONE_DAY, nsPerSecond]

/-- Claim C2 (amended). The table-level correction never drops rows: the output is
exactly the row-wise image of the input, with only the two time fields replaced by
the corrected pair; and for a Tornado row with distinct begin strictly before end the
corrected pair stays distinct provided the elapsed time is under the four-hour limit
and the row is not the exactly-one-hour case with path length under 8 miles (the
branches outside these conditions can collapse the pair, as the counterexample
shows). -/
theorem C2_amended_thm (df : List TornRow) (row : TornRow)
    (hT : row.event_type = "Tornado")
    (hlt : row.begin_date_time < row.end_date_time)
    (h4 : row.end_date_time - row.begin_date_time < TORNADO_LONVEVITY_LIMIT)
    (hne : ¬(row.end_date_time - row.begin_date_time = ONE_HOUR ∧ row.tor_length < 8)) :
    (correct_tornado_times df).length = df.length ∧
    correct_tornado_times df = df.map (fun r =>
      TornRow.mk r.event_type (corrected_times_for r).1 (corrected_times_for r).2
        r.tor_length r.begin_lat r.begin_lon r.end_lat r.end_lon) ∧
    (corrected_times_for row).1 ≠ (corrected_times_for row).2 := by
  refine ⟨by simp [correct_tornado_times, sync_datetime_fields], rfl, ?_⟩
  have h := correct_only_end_ne_of row.tor_length row.begin_date_time row.end_date_time
    hlt h4 hne
  simp [corrected_times_for, hT, le_of_lt hlt]
  exact h

/-- Claim C2 (witness). Instantiates the amended claim at a one-row table holding a
Tornado row lasting 30 minutes. -/
theorem C2_amended_witness :
    (TornRow.mk "Tornado" 0 1800000000000 1 0 0 0 0).event_type = "Tornado" ∧
    (0 : Int) < 1800000000000 ∧
    (1800000000000 : Int) - 0 < TORNADO_LONVEVITY_LIMIT ∧
    ((correct_tornado_times [TornRow.mk "Tornado" 0 1800000000000 1 0 0 0 0]).length = 1 ∧
     (corrected_times_for (TornRow.mk "Tornado" 0 1800000000000 1 0 0 0 0)).1 ≠
       (corrected_times_for (TornRow.mk "Tornado" 0 1800000000000 1 0 0 0 0)).2) := by
  have h := C2_amended_thm [TornRow.mk "Tornado" 0 1800000000000 1 0 0 0 0]
    (TornRow.mk "Tornado" 0 1800000000000 1 0 0 0 0) rfl (by norm_num)
    (by norm_num [TORNADO_LONVEVITY_LIMIT, ONE_HOUR, nsPerSecond])
    (by norm_num [ONE_HOUR, nsPerSecond])
  exact ⟨rfl, by norm_num,
    by norm_num [TORNADO_LONVEVITY_LIMIT, ONE_HOUR, nsPerSecond], h.1, h.2.2⟩

/-- Claim C3. The success of a save result is true exactly when (no request was executed,
or a request was executed and the stored response is an HTTP response whose status
code equals the expected status) and the callback-error list is empty; in particular
it is never true when a callback raised. -/
theorem C3_success_iff (r : SaveResult) :
    r.success = some true ↔
      ((r.executed_request = false ∨
        (r.executed_request = true ∧
         ∃ c, r.response = some (RespObj.http c) ∧ c = r.expected_status)) ∧
       r.exceptions = []) := by
  rcases r with ⟨url, dest, resp, exc, ex, st⟩
  cases ex
  · simp [SaveResult.success, List.isEmpty_iff]
  · cases resp with
    | none => simp [SaveResult.success]
    | some ro =>
      cases ro with
      | http c =>
        simp [SaveResult.success, RespObj.statusCode, List.isEmpty_iff, beq_iff_eq,
          and_comm]
      | ftpHandle => simp [SaveResult.success, RespObj.statusCode]

/-- Claim C4. For a Tornado row with end at or after begin and elapsed at least the
four-hour limit, the correction leaves begin unchanged and the corrected end is:
begin when the path length is under 0.3 miles; begin plus elapsed modulo one day when
the end is at least one day after the begin; and begin otherwise. -/
theorem C4_long_elapsed (row : TornRow) (hT : row.event_type = "Tornado")
    (hle : row.begin_date_time ≤ row.end_date_time)
    (h4 : TORNADO_LONVEVITY_LIMIT ≤ row.end_date_time - row.begin_date_time) :
    corrected_times_for row =
      (row.begin_date_time,
       if row.tor_length < 3/10 then row.begin_date_time
       else if row.begin_date_time + ONE_DAY ≤ row.end_date_time then
         row.begin_date_time +
           (row.end_date_time - row.begin_date_time) % ONE_DAY
       else row.begin_date_time) := by
  simp only [corrected_times_for, hT, ne_eq, not_true_eq_false, if_false, if_pos hle]
  simp only [correct_only_end]
  rw [if_pos h4]
  simp only [Prod.mk.injEq, true_and]
  split_ifs
  · rfl
  · exact Int.add_comm _ _
  · rfl

/-- Claim C4 (witness). A Tornado row lasting 25 hours with a 2-mile path: the
corrected end keeps the one-hour sub-day remainder of the elapsed time. -/
theorem C4_witness :
    (TornRow.mk "Tornado" 100 90000000000100 2 0 0 0 0).event_type = "Tornado" ∧
    (100 : Int) ≤ 90000000000100 ∧
    TORNADO_LONVEVITY_LIMIT ≤ (90000000000100 : Int) - 100 ∧
    corrected_times_for (TornRow.mk "Tornado" 100 90000000000100 2 0 0 0 0) =
      (100, 3600000000100) := by
  have h := C4_long_elapsed (TornRow.mk "Tornado" 100 90000000000100 2 0 0 0 0) rfl
    (by norm_num) (by norm_num [TORNADO_LONVEVITY_LIMIT, ONE_HOUR, nsPerSecond])
  refine ⟨rfl, by norm_num,
    by norm_num [TORNADO_LONVEVITY_LIMIT, ONE_HOUR, nsPerSecond], ?_⟩
  rw [h]
  norm_num [ONE_DAY, nsPerSecond]

/-- Claim C5. For a Tornado row whose recorded end precedes its begin: when the
reversed gap is under the four-hour limit the two timestamps are swapped and the
end-only correction is applied to the swapped pair; otherwise the result is the
original begin paired with the original end moved one day later. -/
theorem C5_reversed (row : TornRow) (hT : row.event_type = "Tornado")
    (hlt : row.end_date_time < row.begin_date_time) :
    corrected_times_for row =
      if row.begin_date_time - row.end_date_time < TORNADO_LONVEVITY_LIMIT then
        (row.end_date_time,
         correct_only_end row.tor_length row.end_date_time row.begin_date_time)
      else (row.begin_date_time, row.end_date_time + ONE_DAY) := by
  simp only [corrected_times_for, hT, ne_eq, not_true_eq_false, if_false]
  rw [if_neg (not_le.mpr hlt)]

/-- Claim C5 (witness). A Tornado row recorded with end one hour before begin and a
10-mile path: the pair is swapped and the swapped pair needs no further change, since
the implied speed of 10 mph is not under 8. -/
theorem C5_witness :
    (TornRow.mk "Tornado" 3600000000000 0 10 0 0 0 0).event_type = "Tornado" ∧
    (0 : Int) < 3600000000000 ∧
    corrected_times_for (TornRow.mk "Tornado" 3600000000000 0 10 0 0 0 0) =
      (0, 3600000000000) := by
  have h := C5_reversed (TornRow.mk "Tornado" 3600000000000 0 10 0 0 0 0) rfl
    (by norm_num)
  refine ⟨rfl, by norm_num, ?_⟩
  rw [h]
  norm_num [correct_only_end, tdSeconds, TORNADO_LONVEVITY_LIMIT, ONE_HOUR, ONE_DAY,
    nsPerSecond]

/-- Claim C6 (counterexample). A tornado row whose end precedes its begin by 30
seconds has a negative longevity, the floor division gives minus one, the sample
count is 0, and points returns an empty sequence, not at least one point. -/
theorem C6_counterexample :
    points (TornRow.mk "Tornado" 60000000000 30000000000 1 35 (-90) 35 (-90)) none =
      some [] := by
  norm_num [points, longevity, linspace, ONE_MINUTE, nsPerSecond]

/-- Claim C6 (amended). For a tornado row with end at or after begin and a positive
spacing delta, points returns a sequence of at least one coordinate pair: the floor
of the nonnegative ratio plus one is at least one. -/
theorem C6_amended_thm (torn : TornRow) (delta : Int) (hd : 0 < delta)
    (hl : torn.begin_date_time ≤ torn.end_date_time) :
    ∃ l, points torn (some delta) = some l ∧ 1 ≤ l.length := by
  have h1 : (0 : ℚ) ≤ ((longevity torn : Int) : ℚ) := by
    have h0 : (0 : Int) ≤ longevity torn := by unfold longevity; omega
    exact_mod_cast h0
  have h2 : (0 : ℚ) < ((ONE_MINUTE : Int) : ℚ) := by
    norm_num [ONE_MINUTE, nsPerSecond]
  have h3 : (0 : ℚ) < ((delta : Int) : ℚ) := by exact_mod_cast hd
  have hq : (0 : ℚ) ≤ (((longevity torn : Int) : ℚ) / ((ONE_MINUTE : Int) : ℚ)) /
      (((delta : Int) : ℚ) / ((ONE_MINUTE : Int) : ℚ)) :=
    div_nonneg (div_nonneg h1 h2.le) (div_nonneg h3.le h2.le)
  have hfloor : (0 : Int) ≤ ⌊(((longevity torn : Int) : ℚ) / ((ONE_MINUTE : Int) : ℚ)) /
      (((delta : Int) : ℚ) / ((ONE_MINUTE : Int) : ℚ))⌋ := Int.floor_nonneg.mpr hq
  simp only [points, Option.getD]
  rw [if_neg (by omega)]
  refine ⟨_, rfl, ?_⟩
  rw [List.length_zip, linspace_length, linspace_length]
  omega

/-- Claim C6 (witness). The ten-minute tornado track of the spec example with the
default one-minute spacing yields a nonempty point sequence. -/
theorem C6_amended_witness :
    (0 : Int) < 60000000000 ∧
    (0 : Int) ≤ 600000000000 ∧
    ∃ l, points (TornRow.mk "Tornado" 0 600000000000 1 35 (-90) (351/10) (-449/5))
        (some 60000000000) = some l ∧ 1 ≤ l.length := by
  refine ⟨by norm_num, by norm_num, ?_⟩
  exact C6_amended_thm (TornRow.mk "Tornado" 0 600000000000 1 35 (-90) (351/10) (-449/5))
    60000000000 (by norm_num) (by norm_num)

/-- Claim C7. Every save result produced on the FTP path (scheme ftp, destination not
skipped by the existing-file check) stores the plain URL-opener handle, which has no
status-code attribute, so evaluating the success property is undefined (none): it
reads the status code of the stored response because a request was executed. -/
theorem C7_ftp_success_undefined (o hc : Bool) (job : SaveJob)
    (hs : job.scheme = "ftp") (hskip : o = true ∨ job.destExists = false) :
    ∃ r, save_and_exec_callback o hc job = Except.ok r ∧
      r.executed_request = true ∧ r.response = some RespObj.ftpHandle ∧
      r.success = none := by
  have hcond : (!o && job.destExists) = false := by
    rcases hskip with h | h <;> simp [h]
  refine ⟨wrapped_callback hc job
    (SaveResult.mk job.url job.dest (some RespObj.ftpHandle) [] true 200), ?_, ?_, ?_, ?_⟩
  · unfold save_and_exec_callback
    simp [hcond, hs]
  · rw [wrapped_callback_executed]
  · rw [wrapped_callback_response]
  · unfold SaveResult.success
    rw [wrapped_callback_executed, wrapped_callback_response]
    simp [RespObj.statusCode]

/-- Claim C7 (witness). A concrete FTP job with a fresh destination: the returned
result carries the URL-opener handle and its success evaluates to none. -/
theorem C7_witness :
    (SaveJob.mk "ftp://host/file" "/data/file" "ftp" false 200 true).scheme = "ftp" ∧
    ((false : Bool) = true ∨
      (SaveJob.mk "ftp://host/file" "/data/file" "ftp" false 200 true).destExists = false) ∧
    ∃ r, save_and_exec_callback false true
        (SaveJob.mk "ftp://host/file" "/data/file" "ftp" false 200 true) = Except.ok r ∧
      r.executed_request = true ∧ r.response = some RespObj.ftpHandle ∧
      r.success = none := by
  exact ⟨rfl, Or.inr rfl, C7_ftp_success_undefined false true
    (SaveJob.mk "ftp://host/file" "/data/file" "ftp" false 200 true) rfl (Or.inr rfl)⟩

/-- Claim C8. With the default 30-second floor, the speed column equals, row for row:
a missing value when the longevity of the row is strictly below the floor, and otherwise
the path length divided by the longevity expressed in hours. -/
theorem C8_speed_floor (df : List TornRow) :
    speed_mph df none = df.map (fun r =>
      if longevity r < 30 * nsPerSecond then none
      else some (r.tor_length / (((longevity r : Int) : ℚ) / ((ONE_HOUR : Int) : ℚ)))) := by
  unfold speed_mph
  induction df with
  | nil => rfl
  | cons a l ih =>
    simp only [List.map_cons, List.zip_cons_cons, Option.getD] at ih ⊢
    refine congrArg₂ List.cons ?_ ih
    by_cases h : longevity a < 30 * nsPerSecond
    · simp [h]
    · simp [h]

/-- Claim C9. For a nonempty url and a status-200 directory page, get_links returns
exactly the hrefs ending with ext, each prefixed with the url (one trailing slash
stripped) and a slash, in document order, further restricted by file_filter when one
is supplied; a missing ext behaves as the empty string, which every href ends with. -/
theorem C9_get_links (url : String) (pat : String) (hrefs : List String)
    (file_filter : Option (String → Bool)) (hurl : url ≠ "") :
    get_links url (some pat) 200 hrefs file_filter =
      Except.ok (((hrefs.filter (fun h => endswith h pat)).map
        (fun h => (if endswith url "/" then url.dropRight 1 else url) ++ "/" ++ h)).filter
        (file_filter.getD (fun _ => true))) ∧
    get_links url none 200 hrefs file_filter =
      get_links url (some "") 200 hrefs file_filter ∧
    (∀ h, endswith h "" = true) := by
  refine ⟨?_, rfl, fun h => by simp [endswith, List.isSuffixOf]⟩
  cases file_filter with
  | none => simp [get_links, hurl, List.filter_true]
  | some f => simp [get_links, hurl]

/-- Claim C9 (witness). The directory-page example of the spec: anchors a.txt, b.csv,
c.txt under https COLON slash slash example.com/data with ext .txt give exactly the
two absolute .txt urls, in order. -/
theorem C9_witness :
    ("https://example.com/data" : String) ≠ "" ∧
    get_links "https://example.com/data" (some ".txt") 200 ["a.txt", "b.csv", "c.txt"]
        none =
      Except.ok ["https://example.com/data/a.txt", "https://example.com/data/c.txt"] := by
  have h := (C9_get_links "https://example.com/data" ".txt" ["a.txt", "b.csv", "c.txt"]
    none (by decide)).1
  exact ⟨by decide, h.trans (congrArg Except.ok (by decide))⟩

/-- Claim C10. A save-mapping entry whose scheme is none of ftp, http, https, and
whose destination is not skipped by the existing-file check, makes the per-item
processing fail synchronously with the ValueError, and in a sequential one-entry
saveall call the error propagates to the caller instead of being captured in a save
result. -/
theorem C10_unsupported_scheme (o hc : Bool) (job : SaveJob)
    (h1 : job.scheme ≠ "ftp") (h2 : job.scheme ≠ "http") (h3 : job.scheme ≠ "https")
    (hskip : o = true ∨ job.destExists = false) :
    save_and_exec_callback o hc job =
      Except.error ("ValueError: Cannot save: " ++ job.url) ∧
    saveall o hc [job] = Except.error ("ValueError: Cannot save: " ++ job.url) := by
  have hcond : (!o && job.destExists) = false := by
    rcases hskip with h | h <;> simp [h]
  have hmain : save_and_exec_callback o hc job =
      Except.error ("ValueError: Cannot save: " ++ job.url) := by
    unfold save_and_exec_callback
    simp [hcond, h1, h2, h3]
  refine ⟨hmain, ?_⟩
  simp only [saveall, List.mapM, List.mapM.loop, hmain]
  rfl

/-- Claim C10 (witness). A gopher-scheme job with a fresh destination: both the
per-item function and a one-entry saveall fail with the ValueError. -/
theorem C10_witness :
    save_and_exec_callback false false
        (SaveJob.mk "gopher://host/file" "/data/file" "gopher" false 200 false) =
      Except.error ("ValueError: Cannot save: " ++ "gopher://host/file") ∧
    saveall false false
        [SaveJob.mk "gopher://host/file" "/data/file" "gopher" false 200 false] =
      Except.error ("ValueError: Cannot save: " ++ "gopher://host/file") := by
  exact C10_unsupported_scheme false false
    (SaveJob.mk "gopher://host/file" "/data/file" "gopher" false 200 false)
    (by decide) (by decide) (by decide) (Or.inr rfl)

end WxData
